import Mathlib

/-!
# Verification of the nheko `MatrixClient` transport core

A shallow embedding of `src/MatrixClient.cc` (nheko's request/response
correlation and sync-cursor engine).  Each endpoint method of the C++
class builds a request and attaches a continuation (a lambda connected to
`QNetworkReply::finished`); we model

* request construction as a pure function from the client state (and, where
  the code parses a string, the parse view of that string) to the list of
  network requests the call issues, in order;
* each continuation as a pure function from the completed response to the
  list of Qt signals it emits, in order, together with the updated client
  state where the continuation assigns a member variable.

Machine integers: the transaction counter is a C++ `int` read from
`QSettings`; the program only ever increments it, so it is modelled as
`Int` (the spec describes the identifier as a monotonically increasing
integer).  HTTP status codes are `Nat` (Qt's
`HttpStatusCodeAttribute ... .toInt()` yields `0` when no status was
received, i.e. on a transport-level failure).
-/

/-- A JSON value, as far as the code inspects one (`QJsonObject`,
`QJsonValue`, nlohmann objects).  Objects keep their fields as an
association list. -/
inductive Json where
  | null : Json
  | bool (b : Bool) : Json
  | num (n : Int) : Json
  | str (s : String) : Json
  | arr (elems : List Json) : Json
  | obj (fields : List (String × Json)) : Json

/-- First field with the given key, as `QJsonObject::operator[]` /
`contains` look it up. -/
def lookupField : List (String × Json) → String → Option Json
  | [], _ => none
  | (k, v) :: rest, key => if k = key then some v else lookupField rest key

/-- `Json.getField o k`: field `k` of `o` when `o` is an object that has
it. -/
def Json.getField : Json → String → Option Json
  | Json.obj fields, key => lookupField fields key
  | _, _ => none

/-- `QJsonValue::toString()`: the string itself for a string value, the
empty string for everything else (including `Undefined`, i.e. `none`). -/
def qValueToString : Option Json → String
  | some (Json.str s) => s
  | _ => ""

/-- The body of a completed response (or any raw byte string the code
parses), abstracted to what the parsers in the code can observe of it:
it is empty, it is non-empty but no JSON document, or it parses to a
JSON value `v` (its raw bytes kept alongside, since the media code emits
them verbatim). -/
inductive BodyView where
  | empty : BodyView
  | notJson (raw : String) : BodyView
  | json (raw : String) (v : Json) : BodyView

/-- `QByteArray::isEmpty` on the raw bytes. -/
def BodyView.isEmpty : BodyView → Bool
  | BodyView.empty => true
  | _ => false

/-- The raw bytes (`reply->readAll()`). -/
def BodyView.raw : BodyView → String
  | BodyView.empty => ""
  | BodyView.notJson s => s
  | BodyView.json s _ => s

/-- `QJsonDocument::fromJson(b); !doc.isNull() && doc.isObject()`:
the bytes parse and the top-level value is an object. -/
def qjsonIsObject : BodyView → Bool
  | BodyView.json _ (Json.obj _) => true
  | _ => false

/-- `QJsonDocument::fromJson(b).object()`: the parsed top-level object,
or the empty object when the document is not an object. -/
def qjsonObject : BodyView → Json
  | BodyView.json _ (Json.obj fields) => Json.obj fields
  | _ => Json.obj []

/-- The error codes `mtx::errors::ErrorCode` (external matrix-structs
header `mtx/errors.hpp`) recognises when parsing a structured protocol
error body. -/
def knownErrcodes : List String :=
  ["M_FORBIDDEN", "M_UNKNOWN_TOKEN", "M_BAD_JSON", "M_NOT_JSON",
   "M_NOT_FOUND", "M_LIMIT_EXCEEDED", "M_USER_IN_USE",
   "M_INVALID_USERNAME", "M_ROOM_IN_USE", "M_THREEPID_IN_USE",
   "M_THREEPID_NOT_FOUND", "M_SERVER_NOT_TRUSTED"]

/-- A parsed `mtx::errors::Error`: `errcode` and `error` fields. -/
structure MtxError where
  errcode : String
  error : String

/-- `mtx::errors::Error res = nlohmann::json::parse(data)`: succeeds when
the body is a JSON object carrying a recognised string `errcode` and a
string `error`; throws (here: `none`) otherwise.  Models the external
matrix-structs parser the code calls. -/
def parseMtxError : BodyView → Option MtxError
  | BodyView.json _ (Json.obj fields) =>
      match lookupField fields "errcode", lookupField fields "error" with
      | some (Json.str c), some (Json.str e) =>
          if knownErrcodes.contains c then some { errcode := c, error := e }
          else none
      | _, _ => none
  | _ => none

/-- `mtx::responses::Sync` built from `nlohmann::json::parse(data)`:
the external parser requires at least a JSON object with a string
`next_batch` field; on success the whole parsed body is handed to the
`syncCompleted` signal. -/
def parseSyncBody : BodyView → Option Json
  | BodyView.json _ v =>
      match v.getField "next_batch" with
      | some (Json.str _) => some v
      | _ => none
  | _ => none

/-- The mutable members of `MatrixClient` the modelled code touches:
`server_`, `token_`, `next_batch_`, `txn_id_`, `filter_`, and the
`auth/user_id` settings entry read when building the filter-upload
path. -/
structure ClientState where
  server : String
  token : String
  next_batch : String
  txn_id : Int
  filter : String
  userId : String

/-- An outbound network request as the code assembles one: HTTP verb,
the host it is sent to (`server_`), the URL path, the query items in the
order `QUrlQuery::addQueryItem` added them, the JSON body if any, and
whether `setupAuth` attached the access token. -/
structure Request where
  host : String
  method : String
  path : String
  query : List (String × String)
  body : Option Json
  authed : Bool

/-- A completed response, as the continuations observe it: the numeric
HTTP status (`HttpStatusCodeAttribute`, `0` when absent), whether
`reply->error()` reports a transport-level error, and the body. -/
structure Response where
  status : Nat
  netError : Bool
  body : BodyView

/-- The `tr(...)` literals the login continuation can emit (the
remaining branch forwards the transport's own `errorString()`). -/
inductive LoginErrMsg where
  | wrongCredentials
  | endpointNotFound
  | unknownError
  | transportErrorString
  | malformedResponse

/-- The `"Media upload failed - ..."` message variants of
`getUploadReply`. -/
inductive UploadFailReason where
  | transportErrorString
  | emptyResponse
  | invalidResponse
  | missingContentUri

/-- The Qt signals the modelled continuations emit. -/
inductive Signal where
  | invalidToken
  | syncError (msg : String)
  | syncCompleted (body : Json)
  | loginError (msg : LoginErrMsg)
  | loginSuccess (userId hostname accessToken : String)
  | loggedOut
  | messageSent (eventId roomid : String) (txnId : Int)
  | messageSendFailed (roomid : String) (txnId : Int)
  | uploadFailed (status : Nat) (reason : UploadFailReason)
  | fileDownloaded (data : String)
  | roomAvatarRetrieved (roomid avatarUrl data : String)

/-- `clientApiUrl_` as set in the constructor. -/
def clientApiUrl : String := "/_matrix/client/r0"

/-- `mediaApiUrl_` as set in the constructor. -/
def mediaApiUrl : String := "/_matrix/media/r0"

/-- `QString::startsWith("\x7b")` as `sync()` uses it: the string's
first character is the opening brace (a one-character prefix test). -/
def startsWithBrace (s : String) : Bool :=
  match s.data with
  | [] => false
  | c :: _ => c == '\x7b'

/-- `mtx::responses::Login` from the external matrix-structs parser:
succeeds on a JSON object carrying string `user_id` and `access_token`
fields (the library additionally validates the identifier format; the
claims below never reach this branch), yielding that pair. -/
def parseLoginBody : BodyView → Option (String × String)
  | BodyView.json _ (Json.obj fields) =>
      match lookupField fields "user_id", lookupField fields "access_token" with
      | some (Json.str uid), some (Json.str tok) => some (uid, tok)
      | _, _ => none
  | _ => none

namespace MatrixClient

/-- `MatrixClient::reset()`: clears `next_batch_`, `server_`, `token_`
and zeroes `txn_id_`. -/
def reset (s : ClientState) : ClientState :=
  { s with next_batch := "", server := "", token := "", txn_id := 0 }

/-- Modelled from the spec: `MatrixClient::incrementTransactionId` is
declared and defined in `MatrixClient.h`, which is not among the
repository files under `src/`; only its callers (`redactEvent`, and the
transaction-carrying send path) are.  The spec's Transaction Allocator
contract says: "Returns the current counter value then increments it."
Each call is one atomic step, so an interleaving of concurrent callers
is a sequence of these steps. -/
def incrementTransactionId (s : ClientState) : Int × ClientState :=
  (s.txn_id, { s with txn_id := s.txn_id + 1 })

/-- The transaction identifiers produced by `n` successive allocator
calls against the same client, in order of allocation. -/
def allocList (s : ClientState) : Nat → List Int
  | 0 => []
  | n + 1 =>
      let p := incrementTransactionId s
      p.1 :: allocList p.2 n

/-- `MatrixClient::uploadFilter(filter)`: validates that the string is a
JSON object (`QJsonDocument::fromJson`; `filterDoc` is the parse view of
the `filter` argument) and, when it is, POSTs it to
`/user/<user_id>/filter`; otherwise it issues nothing.  Returns the
requests issued. -/
def uploadFilter (s : ClientState) (filterDoc : BodyView) : List Request :=
  if qjsonIsObject filterDoc then
    [{ host := s.server, method := "POST",
       path := clientApiUrl ++ "/user/" ++ s.userId ++ "/filter",
       query := [], body := some (qjsonObject filterDoc), authed := true }]
  else []

/-- The continuation of `uploadFilter`'s POST: on a failed status it only
logs; otherwise it stores `response.object()["filter_id"].toString()`
into `filter_` (an empty string when the reply body is not an object or
lacks the field, since `QJsonValue::toString()` defaults to `""`). -/
def uploadFilterCont (s : ClientState) (r : Response) : ClientState :=
  if r.status = 0 ∨ 400 ≤ r.status then s
  else { s with filter := qValueToString ((qjsonObject r.body).getField "filter_id") }

/-- The query `MatrixClient::sync()` assembles, in `addQueryItem` order
(`since` is appended after the `next_batch_` emptiness check passes). -/
def syncQuery (s : ClientState) : List (String × String) :=
  [("set_presence", "online"), ("filter", s.filter),
   ("timeout", "30000"), ("since", s.next_batch)]

/-- `MatrixClient::sync()` up to dispatch: if `filter_` starts with
`"\x7b"` it first calls `uploadFilter(filter_)` (issuing that POST when
the filter validates; `filterDoc` is the parse view of `filter_`); then,
only when `next_batch_` is non-empty, it GETs `/sync` with the assembled
query — with an empty `next_batch_` it logs and returns early.  Returns
the requests issued, in order. -/
def sync (s : ClientState) (filterDoc : BodyView) : List Request :=
  (if startsWithBrace s.filter then uploadFilter s filterDoc else []) ++
  (if s.next_batch.isEmpty then []
   else [{ host := s.server, method := "GET", path := clientApiUrl ++ "/sync",
           query := syncQuery s, body := none, authed := true }])

/-- The continuation attached by `MatrixClient::sync()`: on a failed
status it tries to parse the body as a structured error — emitting
`invalidToken` for `M_UNKNOWN_TOKEN` and `syncError(error)` otherwise —
and on a parse failure falls through to the success path, which emits
`syncCompleted` only when the body parses as a sync response.  The
continuation assigns no member variable, so the state is returned
unchanged. -/
def syncCont (s : ClientState) (r : Response) : ClientState × List Signal :=
  (s,
   if r.status = 0 ∨ 400 ≤ r.status then
     match parseMtxError r.body with
     | some e =>
         if e.errcode = "M_UNKNOWN_TOKEN" then [Signal.invalidToken]
         else [Signal.syncError e.error]
     | none =>
         match parseSyncBody r.body with
         | some v => [Signal.syncCompleted v]
         | none => []
   else
     match parseSyncBody r.body with
     | some v => [Signal.syncCompleted v]
     | none => [])

/-- The continuation attached by `MatrixClient::login`: status 403, 404
and other `>= 400` statuses and transport errors emit the respective
`loginError`; otherwise the body is parsed as a login response,
emitting `loginSuccess(user_id, hostname, access_token)` on success and
a malformed-response `loginError` on failure. -/
def loginCont (s : ClientState) (r : Response) : List Signal :=
  if r.status = 403 then [Signal.loginError LoginErrMsg.wrongCredentials]
  else if r.status = 404 then [Signal.loginError LoginErrMsg.endpointNotFound]
  else if 400 ≤ r.status then [Signal.loginError LoginErrMsg.unknownError]
  else if r.netError then [Signal.loginError LoginErrMsg.transportErrorString]
  else
    match parseLoginBody r.body with
    | some p => [Signal.loginSuccess p.1 s.server p.2]
    | none => [Signal.loginError LoginErrMsg.malformedResponse]

/-- The continuation attached by `MatrixClient::logout`: any status
other than 200 only logs a warning; 200 emits `loggedOut`. -/
def logoutCont (r : Response) : List Signal :=
  if r.status ≠ 200 then [] else [Signal.loggedOut]

/-- The path `sendRoomMessage` builds:
`/rooms/<roomid>/send/m.room.message/<txnId>` under the client API
prefix, with the caller-supplied transaction id as the final
component. -/
def sendMessagePath (roomid : String) (txnId : Int) : String :=
  clientApiUrl ++ "/rooms/" ++ roomid ++ "/send/m.room.message/" ++ toString txnId

end MatrixClient

/-- `mtx::events::MessageType` (external matrix-structs enum): the
`switch` in `sendRoomMessage` handles the first six and sends nothing
for the rest (its `default:` branch — Notice, Location, Unknown). -/
inductive MessageType where
  | text
  | emote
  | image
  | file
  | audio
  | video
  | notice
  | location
  | unknown

namespace MatrixClient

/-- The JSON body the `switch` in `sendRoomMessage` builds per message
type; `none` for the `default:` branch, which logs and returns without
dispatching. -/
def messageBody (ty : MessageType) (msg mime : String) (mediaSize : Int)
    (url : String) : Option Json :=
  let info := Json.obj [("size", Json.num mediaSize), ("mimetype", Json.str mime)]
  match ty with
  | MessageType.text =>
      some (Json.obj [("msgtype", Json.str "m.text"), ("body", Json.str msg)])
  | MessageType.emote =>
      some (Json.obj [("msgtype", Json.str "m.emote"), ("body", Json.str msg)])
  | MessageType.image =>
      some (Json.obj [("msgtype", Json.str "m.image"), ("body", Json.str msg),
                      ("url", Json.str url), ("info", info)])
  | MessageType.file =>
      some (Json.obj [("msgtype", Json.str "m.file"), ("body", Json.str msg),
                      ("url", Json.str url), ("info", info)])
  | MessageType.audio =>
      some (Json.obj [("msgtype", Json.str "m.audio"), ("body", Json.str msg),
                      ("url", Json.str url), ("info", info)])
  | MessageType.video =>
      some (Json.obj [("msgtype", Json.str "m.video"), ("body", Json.str msg),
                      ("url", Json.str url), ("info", info)])
  | _ => none

/-- `MatrixClient::sendRoomMessage` up to dispatch: builds the endpoint
path `/rooms/<roomid>/send/m.room.message/<txnId>` from the
caller-supplied `txnId`, builds the body for the message type, and PUTs
it — or issues nothing for an unknown type.  The method neither reads
nor advances `txn_id_`. -/
def sendRoomMessage (s : ClientState) (ty : MessageType) (txnId : Int)
    (roomid msg mime : String) (mediaSize : Int) (url : String) : List Request :=
  match messageBody ty msg mime mediaSize url with
  | none => []
  | some b =>
      [{ host := s.server, method := "PUT", path := sendMessagePath roomid txnId,
         query := [], body := some b, authed := true }]

/-- The continuation attached by `sendRoomMessage` (it captures the
`roomid` and `txnId` the request was dispatched with): a failed status,
an empty body, a body that is not a JSON object, or an object without an
`event_id` field each emit `messageSendFailed(roomid, txnId)`; otherwise
`messageSent(event_id, roomid, txnId)` is emitted. -/
def sendRoomMessageCont (roomid : String) (txnId : Int) (r : Response) : List Signal :=
  if r.status = 0 ∨ 400 ≤ r.status then [Signal.messageSendFailed roomid txnId]
  else if r.body.isEmpty then [Signal.messageSendFailed roomid txnId]
  else if ¬ qjsonIsObject r.body then [Signal.messageSendFailed roomid txnId]
  else if ((qjsonObject r.body).getField "event_id").isNone then
    [Signal.messageSendFailed roomid txnId]
  else
    [Signal.messageSent (qValueToString ((qjsonObject r.body).getField "event_id"))
       roomid txnId]

/-- The continuation attached by `MatrixClient::fetchRoomAvatar`: a
failed status or a zero-length body only logs (or silently returns);
otherwise `roomAvatarRetrieved` carries the raw bytes. -/
def fetchRoomAvatarCont (roomid avatarUrl : String) (r : Response) : List Signal :=
  if r.status = 0 ∨ 400 ≤ r.status then []
  else if r.body.isEmpty then []
  else [Signal.roomAvatarRetrieved roomid avatarUrl r.body.raw]

/-- The continuation attached by `MatrixClient::downloadFile` to the
proxy: a failed status only logs; a zero-length body silently returns;
otherwise `fileDownloaded` carries the raw bytes. -/
def downloadFileCont (r : Response) : List Signal :=
  if r.status = 0 ∨ 400 ≤ r.status then []
  else if r.body.isEmpty then []
  else [Signal.fileDownloaded r.body.raw]

/-- `MatrixClient::getUploadReply`: classifies an upload response into
the `QJsonObject` handed to the caller plus the signals emitted — a
failed status, an empty body, a non-object body, or an object missing
`content_uri` each emit one `uploadFailed` and yield the empty object. -/
def getUploadReply (r : Response) : Json × List Signal :=
  if r.status = 0 ∨ 400 ≤ r.status then
    (Json.obj [], [Signal.uploadFailed r.status UploadFailReason.transportErrorString])
  else if r.body.isEmpty then
    (Json.obj [], [Signal.uploadFailed r.status UploadFailReason.emptyResponse])
  else if ¬ qjsonIsObject r.body then
    (Json.obj [], [Signal.uploadFailed r.status UploadFailReason.invalidResponse])
  else if ((qjsonObject r.body).getField "content_uri").isNone then
    (Json.obj [], [Signal.uploadFailed r.status UploadFailReason.missingContentUri])
  else (qjsonObject r.body, [])

/-- `MatrixClient::redactEvent`: allocates the next transaction id via
`incrementTransactionId()` and PUTs an empty object to
`/rooms/<room_id>/redact/<event_id>/<txn>`.  Returns the request and the
advanced state. -/
def redactEvent (s : ClientState) (room_id event_id : String) : Request × ClientState :=
  let p := incrementTransactionId s
  ({ host := s.server, method := "PUT",
     path := clientApiUrl ++ "/rooms/" ++ room_id ++ "/redact/" ++ event_id ++
             "/" ++ toString p.1,
     query := [], body := some (Json.obj []), authed := true }, p.2)

end MatrixClient

/-- The request is `uploadFilter`'s POST to `/user/<userId>/filter`. -/
def isFilterUploadReq (userId : String) (r : Request) : Bool :=
  r.method == "POST" && r.path == clientApiUrl ++ "/user/" ++ userId ++ "/filter"

/-- The request is the sync GET. -/
def isSyncReq (r : Request) : Bool :=
  r.method == "GET" && r.path == clientApiUrl ++ "/sync"

/-- A client state with an established cursor and a resolved filter
handle (no literal filter). -/
def sampleState : ClientState :=
  { server := "matrix.org", token := "secret", next_batch := "s72_1",
    txn_id := 5, filter := "fid123", userId := "@alice:matrix.org" }

/-- The spec's distinguished auth-revoked response: status 401 with body
`{"errcode":"M_UNKNOWN_TOKEN","error":"bad token"}`. -/
def unknownTokenResponse : Response :=
  { status := 401, netError := true,
    body := BodyView.json
      "\x7b\"errcode\":\"M_UNKNOWN_TOKEN\",\"error\":\"bad token\"\x7d"
      (Json.obj [("errcode", Json.str "M_UNKNOWN_TOKEN"),
                 ("error", Json.str "bad token")]) }

/-- A client state whose filter is still the literal JSON definition,
with an established cursor. -/
def literalFilterState : ClientState :=
  { server := "matrix.org", token := "secret", next_batch := "s72_1",
    txn_id := 5, filter := "\x7b\"room\":\x7b\x7d\x7d",
    userId := "@alice:matrix.org" }

/-- The parse view of `literalFilterState.filter`: a valid JSON object. -/
def literalFilterDoc : BodyView :=
  BodyView.json "\x7b\"room\":\x7b\x7d\x7d" (Json.obj [("room", Json.obj [])])

/-- An Idle-state client: no cursor yet (`next_batch_` empty), filter
still the literal JSON. -/
def idleLiteralState : ClientState :=
  { server := "matrix.org", token := "secret", next_batch := "",
    txn_id := 1, filter := "\x7b\"room\":\x7b\x7d\x7d",
    userId := "@alice:matrix.org" }

/-- A successful filter-upload reply: status 200 with body
`{"filter_id":"fid123"}`. -/
def filterIdResponse : Response :=
  { status := 200, netError := false,
    body := BodyView.json "\x7b\"filter_id\":\"fid123\"\x7d"
      (Json.obj [("filter_id", Json.str "fid123")]) }

/-- A well-formed protocol error other than the auth-revoked one:
status 403 with body `{"errcode":"M_FORBIDDEN","error":"denied"}`. -/
def forbiddenResponse : Response :=
  { status := 403, netError := false,
    body := BodyView.json "\x7b\"errcode\":\"M_FORBIDDEN\",\"error\":\"denied\"\x7d"
      (Json.obj [("errcode", Json.str "M_FORBIDDEN"),
                 ("error", Json.str "denied")]) }

/-- Every identifier a run of allocator calls hands out is at least the
counter the run started from. -/
theorem mem_allocList_le :
    ∀ (n : Nat) (s : ClientState) (t : Int),
      t ∈ MatrixClient.allocList s n → s.txn_id ≤ t := by
  intro n
  induction n with
  | zero => intro s t h; simp [MatrixClient.allocList] at h
  | succ k ih =>
      intro s t h
      simp only [MatrixClient.allocList, MatrixClient.incrementTransactionId,
        List.mem_cons] at h
      rcases h with h | h
      · omega
      · have := ih _ _ h
        simp only [MatrixClient.incrementTransactionId] at this
        omega

/-- C1: for every sequence of `n` allocator calls against one session
(each write call — message send, redaction — performs one), the `n`
transaction identifiers produced are strictly increasing in allocation
order, pairwise distinct, and one is produced per call; each call
returns the current counter and advances it by one, and since a call is
a single atomic step, an interleaving of concurrent callers is such a
sequence, so no two callers observe the same value. -/
theorem txn_ids_strictly_increasing (s : ClientState) (n : Nat) :
    List.Pairwise (· < ·) (MatrixClient.allocList s n) ∧
    (MatrixClient.allocList s n).Nodup ∧
    (MatrixClient.allocList s n).length = n := by
  have key : ∀ (m : Nat) (st : ClientState),
      List.Pairwise (· < ·) (MatrixClient.allocList st m) := by
    intro m
    induction m with
    | zero => intro st; simp [MatrixClient.allocList]
    | succ k ih =>
        intro st
        simp only [MatrixClient.allocList]
        refine List.Pairwise.cons ?_ (ih _)
        intro t ht
        have := mem_allocList_le k _ t ht
        simp only [MatrixClient.incrementTransactionId] at this ⊢
        omega
  have len : ∀ (m : Nat) (st : ClientState),
      (MatrixClient.allocList st m).length = m := by
    intro m
    induction m with
    | zero => intro st; rfl
    | succ k ih => intro st; simp [MatrixClient.allocList, ih]
  exact ⟨key n s, (key n s).imp ne_of_lt, len n s⟩

/-- C2 counterexample: the login continuation, given the distinguished
auth-revoked response (status 401, errcode `M_UNKNOWN_TOKEN`), emits the
generic `loginError` and not `invalidToken` — the auth-revoked
classification is not applied by every request continuation. -/
theorem login_ignores_unknown_token_counterexample :
    MatrixClient.loginCont sampleState unknownTokenResponse
      = [Signal.loginError LoginErrMsg.unknownError] ∧
    MatrixClient.loginCont sampleState unknownTokenResponse
      ≠ [Signal.invalidToken] := by
  constructor
  · rfl
  · intro h
    rw [show MatrixClient.loginCont sampleState unknownTokenResponse
          = [Signal.loginError LoginErrMsg.unknownError] from rfl] at h
    simp at h

/-- C2 (amended): only the sync continuation performs the auth-revoked
classification — on any completed sync response with a failed status
whose body parses as a structured error with errcode `M_UNKNOWN_TOKEN`,
it emits exactly `invalidToken` (never `syncError`); other continuations
(e.g. login's, see the counterexample) do not apply it. -/
theorem sync_classifies_unknown_token (s : ClientState) (r : Response) (e : MtxError)
    (hfail : r.status = 0 ∨ 400 ≤ r.status)
    (hparse : parseMtxError r.body = some e)
    (hcode : e.errcode = "M_UNKNOWN_TOKEN") :
    MatrixClient.syncCont s r = (s, [Signal.invalidToken]) := by
  simp [MatrixClient.syncCont, if_pos hfail, hparse, hcode]

/-- Witness for the amended C2 theorem at the spec's concrete response. -/
theorem sync_classifies_unknown_token_witness :
    MatrixClient.syncCont sampleState unknownTokenResponse
      = (sampleState, [Signal.invalidToken]) :=
  sync_classifies_unknown_token sampleState unknownTokenResponse
    { errcode := "M_UNKNOWN_TOKEN", error := "bad token" }
    (Or.inr (by decide)) (by rfl) rfl

/-- C3 counterexample: two sync calls while the filter is still literal
(the upload continuation has not yet run, so the state is unchanged in
between — exactly the two-concurrent-resolve scenario) issue two
filter-upload requests, not one: the code comment itself says it
ignores "that the filter might be uploaded multiple times". -/
theorem filter_uploaded_twice_counterexample :
    ((MatrixClient.sync literalFilterState literalFilterDoc ++
      MatrixClient.sync literalFilterState literalFilterDoc).filter
        (isFilterUploadReq literalFilterState.userId)).length = 2 := by
  decide

/-- C3 (amended): a literal filter may be uploaded once per sync call
until an upload reply is processed; once the continuation of the upload
stores the server-assigned handle (a `filter_id` not in literal JSON
form) it permanently replaces the literal, and from then on a sync call
issues no further upload — only the sync GET. -/
theorem filter_handle_replaces_literal (s : ClientState) (r : Response)
    (hok : ¬ (r.status = 0 ∨ 400 ≤ r.status))
    (hid : startsWithBrace (qValueToString ((qjsonObject r.body).getField "filter_id"))
             = false) :
    (MatrixClient.uploadFilterCont s r).filter
      = qValueToString ((qjsonObject r.body).getField "filter_id") ∧
    ∀ d : BodyView,
      (MatrixClient.sync (MatrixClient.uploadFilterCont s r) d).filter
        (isFilterUploadReq s.userId) = [] ∧
      (MatrixClient.sync (MatrixClient.uploadFilterCont s r) d).all isSyncReq = true := by
  have hstate : MatrixClient.uploadFilterCont s r =
      { s with filter := qValueToString ((qjsonObject r.body).getField "filter_id") } := by
    simp [MatrixClient.uploadFilterCont, hok]
  refine ⟨by rw [hstate], ?_⟩
  intro d
  rw [hstate]
  simp only [MatrixClient.sync, hid]
  by_cases hnb : s.next_batch.isEmpty <;>
    simp [hnb, isFilterUploadReq, isSyncReq]

/-- Witness for the amended C3 theorem: a concrete successful upload
reply carrying `filter_id = "fid123"`. -/
theorem filter_handle_replaces_literal_witness :
    (MatrixClient.uploadFilterCont literalFilterState filterIdResponse).filter
      = qValueToString ((qjsonObject filterIdResponse.body).getField "filter_id") ∧
    ∀ d : BodyView,
      (MatrixClient.sync (MatrixClient.uploadFilterCont literalFilterState filterIdResponse) d).filter
        (isFilterUploadReq literalFilterState.userId) = [] ∧
      (MatrixClient.sync (MatrixClient.uploadFilterCont literalFilterState filterIdResponse) d).all
        isSyncReq = true :=
  filter_handle_replaces_literal literalFilterState filterIdResponse
    (by decide) (by decide)

/-- C4 counterexample: a poll attempt while Idle (empty `next_batch_`)
with the filter still in literal form does issue a network call — the
filter-upload POST — even though the sync GET is skipped, so the
attempt is not free of network calls. -/
theorem idle_poll_issues_upload_counterexample :
    (MatrixClient.sync idleLiteralState literalFilterDoc).length = 1 ∧
    (MatrixClient.sync idleLiteralState literalFilterDoc).all
      (isFilterUploadReq idleLiteralState.userId) = true := by
  constructor <;> decide

/-- C4 (amended): a poll attempt while Idle (empty `next_batch_`) is
rejected locally without issuing a sync request — no sync GET is
dispatched — but a filter-upload POST may still be issued when the
filter is in literal form; in particular every request such an attempt
issues is the filter upload. -/
theorem idle_poll_no_sync_request (s : ClientState) (d : BodyView)
    (h : s.next_batch.isEmpty = true) :
    (MatrixClient.sync s d).filter isSyncReq = [] ∧
    (MatrixClient.sync s d).all (isFilterUploadReq s.userId) = true := by
  simp only [MatrixClient.sync, h, if_true]
  by_cases hf : startsWithBrace s.filter <;>
    simp [hf, MatrixClient.uploadFilter, isSyncReq, isFilterUploadReq]

/-- Witness for the amended C4 theorem at the concrete Idle state. -/
theorem idle_poll_no_sync_request_witness :
    (MatrixClient.sync idleLiteralState literalFilterDoc).filter isSyncReq = [] ∧
    (MatrixClient.sync idleLiteralState literalFilterDoc).all
      (isFilterUploadReq idleLiteralState.userId) = true :=
  idle_poll_no_sync_request idleLiteralState literalFilterDoc (by decide)

/-- C5 counterexample: an incremental-sync failure whose body is not a
structured protocol error (here a transport failure: status 0, junk
body) leaves the cursor unchanged but notifies nobody — the
continuation emits no signal at all, so the caller is not told of the
failure. -/
theorem sync_failure_unnotified_counterexample :
    MatrixClient.syncCont sampleState
      { status := 0, netError := true, body := BodyView.notJson "x" }
      = (sampleState, []) := by
  rfl

/-- C5 (amended): on a completed sync failure whose body parses as a
structured protocol error with a recognised errcode other than
`M_UNKNOWN_TOKEN`, the session state (in particular the stored
`next_batch_` cursor) is left unchanged and the caller is notified via
`syncError`; a failure whose body does not so parse also leaves the
cursor unchanged but produces no notification (see the
counterexample). -/
theorem sync_error_keeps_cursor_and_notifies (s : ClientState) (r : Response)
    (e : MtxError)
    (hfail : r.status = 0 ∨ 400 ≤ r.status)
    (hparse : parseMtxError r.body = some e)
    (hcode : e.errcode ≠ "M_UNKNOWN_TOKEN") :
    MatrixClient.syncCont s r = (s, [Signal.syncError e.error]) := by
  simp [MatrixClient.syncCont, if_pos hfail, hparse, hcode]

/-- Witness for the amended C5 theorem at a concrete `M_FORBIDDEN`
response. -/
theorem sync_error_keeps_cursor_and_notifies_witness :
    MatrixClient.syncCont sampleState forbiddenResponse
      = (sampleState, [Signal.syncError "denied"]) :=
  sync_error_keeps_cursor_and_notifies sampleState forbiddenResponse
    { errcode := "M_FORBIDDEN", error := "denied" }
    (Or.inr (by decide)) (by rfl) (by decide)

/-- C6 counterexample: a download that completes with a success status
but a zero-length body resolves to silence — the continuation emits no
signal at all, neither a success nor a failure outcome. -/
theorem download_empty_silent_counterexample :
    MatrixClient.downloadFileCont
      { status := 200, netError := false, body := BodyView.empty } = [] := by
  rfl

/-- C6 (amended): a zero-length successful upload response does resolve
to a failure outcome (`uploadFailed` with the empty-response message),
but a zero-length successful download emits nothing at all — it is
dropped silently rather than delivered as a failure. -/
theorem empty_body_media_outcomes (status : Nat)
    (h : ¬ (status = 0 ∨ 400 ≤ status)) :
    MatrixClient.downloadFileCont
      { status := status, netError := false, body := BodyView.empty } = [] ∧
    MatrixClient.getUploadReply
      { status := status, netError := false, body := BodyView.empty }
      = (Json.obj [], [Signal.uploadFailed status UploadFailReason.emptyResponse]) := by
  constructor <;>
    simp [MatrixClient.downloadFileCont, MatrixClient.getUploadReply, h,
      BodyView.isEmpty]

/-- Witness for the amended C6 theorem at status 200. -/
theorem empty_body_media_outcomes_witness :
    MatrixClient.downloadFileCont
      { status := 200, netError := false, body := BodyView.empty } = [] ∧
    MatrixClient.getUploadReply
      { status := 200, netError := false, body := BodyView.empty }
      = (Json.obj [], [Signal.uploadFailed 200 UploadFailReason.emptyResponse]) :=
  empty_body_media_outcomes 200 (by decide)

/-- C7 counterexample: a logout request that completes with status 500
resolves to no caller-visible outcome at all — the continuation only
logs and emits nothing, so not every dispatched request reports exactly
one outcome. -/
theorem logout_failure_silent_counterexample :
    MatrixClient.logoutCont
      { status := 500, netError := false, body := BodyView.notJson "err" } = [] := by
  rfl

/-- C7 (amended): each of the cited continuations reports at most one
outcome per request, but not always exactly one: the logout continuation
emits `loggedOut` exactly when the status is 200 and nothing otherwise,
and the room-avatar continuation emits nothing on a failed status or an
empty body. -/
theorem outcomes_at_most_once (r : Response) (roomid url : String) :
    (MatrixClient.logoutCont r).length ≤ 1 ∧
    (MatrixClient.fetchRoomAvatarCont roomid url r).length ≤ 1 ∧
    ((MatrixClient.logoutCont r = [Signal.loggedOut]) ↔ r.status = 200) := by
  refine ⟨?_, ?_, ?_⟩
  · unfold MatrixClient.logoutCont
    split <;> simp
  · unfold MatrixClient.fetchRoomAvatarCont
    split <;> [simp; skip]
    split <;> simp
  · unfold MatrixClient.logoutCont
    split <;> rename_i hs
    · simp [hs]
    · simp at hs
      simp [hs]

/-- C8: the dispatcher for room messages embeds exactly the
caller-supplied transaction id in the request path and never
regenerates one — the issued path is a pure function of `roomid` and
`txnId`, independent of the client state (in particular of `txn_id_`),
so a caller-initiated retry with the same `txnId` and arguments
constructs the identical path
`/rooms/<roomid>/send/m.room.message/<txnId>`. -/
theorem send_path_embeds_caller_txn (s1 s2 : ClientState) (ty : MessageType)
    (txnId : Int) (roomid msg mime : String) (sz : Int) (url : String) :
    (MatrixClient.sendRoomMessage s1 ty txnId roomid msg mime sz url).map Request.path
      = (MatrixClient.sendRoomMessage s2 ty txnId roomid msg mime sz url).map Request.path ∧
    (MatrixClient.sendRoomMessage s1 ty txnId roomid msg mime sz url).all
      (fun rq => rq.path == MatrixClient.sendMessagePath roomid txnId) = true := by
  cases ty <;>
    simp [MatrixClient.sendRoomMessage, MatrixClient.messageBody]

/-- C9 counterexample: the incremental sync request of a synced session
carries a fourth query parameter, `set_presence=online`, which is not
among the three the claim says the request carries exactly (`since`,
`timeout`, `filter`). -/
theorem sync_query_extra_param_counterexample :
    (MatrixClient.sync sampleState (BodyView.notJson "fid123")).map Request.query
      = [[("set_presence", "online"), ("filter", "fid123"),
          ("timeout", "30000"), ("since", "s72_1")]] ∧
    ¬ ("set_presence" ∈ (["since", "timeout", "filter"] : List String)) := by
  constructor <;> decide

/-- C9 (amended): every incremental sync request (cursor established,
filter resolved) carries exactly four query parameters:
`set_presence=online`, `filter` set to the session's current filter
value, `timeout=30000` (the fixed long-poll bound in milliseconds), and
`since` set to the current stored cursor. -/
theorem sync_query_params (s : ClientState) (d : BodyView)
    (hnb : s.next_batch.isEmpty = false)
    (hf : startsWithBrace s.filter = false) :
    MatrixClient.sync s d
      = [{ host := s.server, method := "GET", path := clientApiUrl ++ "/sync",
           query := [("set_presence", "online"), ("filter", s.filter),
                     ("timeout", "30000"), ("since", s.next_batch)],
           body := none, authed := true }] := by
  simp [MatrixClient.sync, MatrixClient.syncQuery, hnb, hf]

/-- Witness for the amended C9 theorem at a concrete synced state. -/
theorem sync_query_params_witness :
    MatrixClient.sync sampleState (BodyView.notJson "fid123")
      = [{ host := sampleState.server, method := "GET",
           path := clientApiUrl ++ "/sync",
           query := [("set_presence", "online"), ("filter", sampleState.filter),
                     ("timeout", "30000"), ("since", sampleState.next_batch)],
           body := none, authed := true }] :=
  sync_query_params sampleState (BodyView.notJson "fid123") (by decide) (by decide)

/-- C10: the continuation of a dispatched room-message send (known
message type) always emits exactly one signal: `messageSent` with the
response's `event_id` and the dispatched `roomid`/`txnId` exactly when
the status passed the success check (neither 0 nor >= 400), the body is
non-empty, parses as a JSON object, and contains an `event_id` field —
and `messageSendFailed` carrying the same `roomid` and `txnId` in every
other case. -/
theorem send_message_outcome (roomid : String) (txnId : Int) (r : Response) :
    ((∃ e, MatrixClient.sendRoomMessageCont roomid txnId r
        = [Signal.messageSent e roomid txnId]) ↔
      (¬ (r.status = 0 ∨ 400 ≤ r.status) ∧ r.body.isEmpty = false ∧
        qjsonIsObject r.body = true ∧
        ((qjsonObject r.body).getField "event_id").isSome = true)) ∧
    ((MatrixClient.sendRoomMessageCont roomid txnId r
        = [Signal.messageSendFailed roomid txnId]) ↔
      ¬ (¬ (r.status = 0 ∨ 400 ≤ r.status) ∧ r.body.isEmpty = false ∧
        qjsonIsObject r.body = true ∧
        ((qjsonObject r.body).getField "event_id").isSome = true)) ∧
    (MatrixClient.sendRoomMessageCont roomid txnId r).length = 1 := by
  unfold MatrixClient.sendRoomMessageCont
  by_cases h1 : r.status = 0 ∨ 400 ≤ r.status
  · simp [h1]
  · by_cases h2 : r.body.isEmpty
    · simp [h1, h2]
    · by_cases h3 : qjsonIsObject r.body
      · cases hopt : (qjsonObject r.body).getField "event_id" with
        | none => simp [h1, h2, h3, hopt]
        | some v => simp [h1, h2, h3, hopt]
      · simp [h1, h2, h3]
